import Mathlib

/-!
Shallow embedding of the hacker-stories inline-handlers React component
(`src/src/App.jsx` and its near-duplicate `src/unnamed/part_000`).

The embedding models:
  * the `Story` record and the fixed seed list `initialStories`;
  * the derived filtered view `searchedStories` (JS:
    `stories.filter(story => story.title.toLowerCase().includes(searchTerm.toLowerCase()))`);
  * the removal handler `handleRemoveStory` (JS:
    `stories.filter(story => item.objectID !== story.objectID)`);
  * the `useStorageState` custom hook: its initial read
    (`localStorage.getItem('key') || initialState` — note the literal
    string `'key'` in the source) and its write-back `useEffect` with
    dependency array `[value, key]`;
  * the container state `(stories, searchTerm)` and the two event
    handlers, plus the per-row inline click handler
    `() => onRemoveItem(item)`.  The two copies differ here: the
    `part_000` `Item` destructures `({item, onRemoveItem})` and invokes
    the callback, while the `App.jsx` `Item` destructures only
    `({item})`, leaving `onRemoveItem` unbound so the click throws a
    `ReferenceError`; both behaviours are modelled.
-/

/-- The item record of the data model (`initialStories` elements). -/
structure Story where
  title : String
  url : String
  author : String
  num_comments : Int
  points : Int
  objectID : Int
  deriving Repr, DecidableEq

/-- Per-character lower-casing, modelling JS `String.prototype.toLowerCase`
on the (ASCII) titles appearing in this program. -/
def jsToLower (s : String) : String :=
  ⟨s.data.map Char.toLower⟩

/-- `strStartsWith s t` : the character list `t` occurs at the start of `s`
(JS `s.startsWith(t)` on the underlying characters). -/
def strStartsWith : List Char → List Char → Bool
  | _, [] => true
  | [], _ :: _ => false
  | c :: s, d :: t => c = d && strStartsWith s t

/-- `strIncludes s t` : `t` occurs contiguously somewhere in `s`. -/
def strIncludes : List Char → List Char → Bool
  | [], t => t.isEmpty
  | s@(_ :: s'), t => strStartsWith s t || strIncludes s' t

/-- JS `s.includes(t)`: contiguous substring containment. -/
def jsIncludes (s t : String) : Bool :=
  strIncludes s.data t.data

/-- The match predicate of the derived view: the story's title,
lower-cased, contains the search term, lower-cased, as a substring. -/
def storyMatches (searchTerm : String) (story : Story) : Bool :=
  jsIncludes (jsToLower story.title) (jsToLower searchTerm)

/-- JS `searchedStories = stories.filter(story =>
story.title.toLowerCase().includes(searchTerm.toLowerCase()))`. -/
def searchedStories (stories : List Story) (searchTerm : String) : List Story :=
  stories.filter (storyMatches searchTerm)

/-- JS `handleRemoveStory`: keeps the stories whose `objectID` differs from
the removed item's (`stories.filter(story => item.objectID !== story.objectID)`). -/
def handleRemoveStory (item : Story) (stories : List Story) : List Story :=
  stories.filter (fun story => item.objectID != story.objectID)

/-- First element of the seed collection (`objectID 0`). -/
def reactStory : Story :=
  { title := "React"
  , url := "https://reactjs.org/"
  , author := "Jordan Walke"
  , num_comments := 3
  , points := 4
  , objectID := 0 }

/-- Second element of the seed collection (`objectID 1`). -/
def reduxStory : Story :=
  { title := "Redux"
  , url := "https://redux.js.org/"
  , author := "Dan Abramov, Andrew Clark"
  , num_comments := 2
  , points := 5
  , objectID := 1 }

/-- The fixed seed collection from the source. -/
def initialStories : List Story :=
  [reactStory, reduxStory]

/-! ### The `useStorageState` custom hook

The browser's `localStorage` is an external key-value store,
modelled as a partial map from string keys to string values.  -/

/-- The external key-value store (`localStorage`): `none` models an
absent entry (JS `getItem` returning `null`). -/
def Store := String → Option String

/-- The empty store. -/
def emptyStore : Store := fun _ => none

/-- JS `localStorage.getItem(k)`. -/
def jsGetItem (st : Store) (k : String) : Option String :=
  st k

/-- JS `localStorage.setItem(k, v)`: replaces the entry under `k`. -/
def jsSetItem (st : Store) (k v : String) : Store :=
  fun k' => if k' = k then some v else st k'

/-- JS `x || d` for `x` a `getItem` result: falls back to `d` when `x`
is falsy (`null` or the empty string). -/
def jsOrElse (x : Option String) (d : String) : String :=
  match x with
  | some v => if v = "" then d else v
  | none => d

set_option linter.unusedVariables false in
/-- The initial value computed by `useStorageState`'s `useState` call:
`localStorage.getItem('key') || initialState`.  Note: the source reads
the literal string `'key'`, not the `key` parameter. -/
def useStorageStateInit (st : Store) (key initialState : String) : String :=
  jsOrElse (jsGetItem st "key") initialState

/-- A render-time snapshot of a `useStorageState` cell: its current
`value` and `key`, the external store, and the dependency array
`[value, key]` as last seen by the `useEffect` (none before the first
render commit). -/
structure CellRun where
  value : String
  key : String
  store : Store
  lastDeps : Option (String × String)

/-- The write-back `useEffect` of `useStorageState`, run after a render:
it fires when the dependency array `[value, key]` differs from the one
of the previous run (or on the first run), and then executes
`localStorage.setItem(key, value)`. -/
def runStorageEffect (s : CellRun) : CellRun :=
  if s.lastDeps = some (s.value, s.key) then s
  else { s with
          store := jsSetItem s.store s.key s.value
          lastDeps := some (s.value, s.key) }

/-- The updater returned by `useStorageState` (`setValue`): replaces the
cell's current value; the write-back runs at the next render commit. -/
def setValue (s : CellRun) (v : String) : CellRun :=
  { s with value := v }

/-- Creating the cell: `useStorageState(key, initialState)` at first
render, before any effect has run. -/
def createCell (st : Store) (key initialState : String) : CellRun :=
  { value := useStorageStateInit st key initialState
  , key := key
  , store := st
  , lastDeps := none }

/-! ### The `App` container -/

/-- A DOM event target carrying the input's current text. -/
structure EventTarget where
  value : String

/-- A DOM change event as consumed by `handleSearch`. -/
structure JsEvent where
  target : EventTarget

/-- JS `handleSearch`: the new search term passed to `setSearchTerm`
is `event.target.value`. -/
def handleSearch (event : JsEvent) : String :=
  event.target.value

/-- The container's canonical state: the stateful `stories` list and
the `searchTerm` string (held by the `useStorageState` cell). -/
structure AppState where
  stories : List Story
  searchTerm : String
  deriving DecidableEq

/-- State transition of the remove-button path: `handleRemoveStory`
calls `setStories(newStories)`, which replaces only the `stories` cell. -/
def appRemove (s : AppState) (item : Story) : AppState :=
  { s with stories := handleRemoveStory item s.stories }

/-- State transition of the search-input path: `handleSearch` calls
`setSearchTerm(event.target.value)`, which replaces only the
`searchTerm` cell. -/
def appSearch (s : AppState) (event : JsEvent) : AppState :=
  { s with searchTerm := handleSearch event }

/-- The two user events the container handles. -/
inductive AppEvent where
  | dismissClick (item : Story)
  | inputChange (event : JsEvent)

/-- One event-handler invocation.  The result type is `Except String`
so that a raised error would be visible as `.error`; the source
handlers contain no throw site, so every branch is `.ok`. -/
def appStep (s : AppState) (e : AppEvent) : Except String AppState :=
  match e with
  | .dismissClick item => .ok (appRemove s item)
  | .inputChange event => .ok (appSearch s event)

/-- The inline handler of the `Item` row's Dismiss button in the
`src/unnamed/part_000` copy: there `Item` destructures
`({item, onRemoveItem})`, so `() => onRemoveItem(item)` invokes the
removal callback with the row's full item value. -/
def itemOnClick {α : Type} (onRemoveItem : Story → α) (item : Story) : α :=
  onRemoveItem item

set_option linter.unusedVariables false in
/-- The inline handler of the `Item` row's Dismiss button in the
`src/src/App.jsx` copy: there `Item` destructures only `({item})`, so
the identifier `onRemoveItem` in `() => onRemoveItem(item)` has no
binding in any enclosing scope and evaluating the handler throws a
`ReferenceError` instead of producing a result. -/
def itemOnClickJsx (α : Type) (item : Story) : Except String α :=
  .error "ReferenceError: onRemoveItem is not defined"

/-! ### Helper lemmas -/

/-- Any character list contains the empty list as a substring
(JS `s.includes("")` is `true`). -/
theorem strIncludes_nil (s : List Char) : strIncludes s [] = true := by
  cases s <;> simp [strIncludes, strStartsWith]

/-- Element count in a filtered list, as a single conditional form. -/
theorem count_filter_ite {α : Type} [DecidableEq α] (a : α) (p : α → Bool)
    (l : List α) : (l.filter p).count a = if p a then l.count a else 0 := by
  by_cases h : p a
  · simp only [h, if_true]
    exact List.count_filter h
  · simp only [h, if_false, Bool.false_eq_true]
    rw [List.count_eq_zero]
    intro hmem
    exact h (List.mem_filter.mp hmem).2

/-! ### Theorems for the claims -/

/-- C1: for every item collection `L` and filter text `f`, the derived
view `searchedStories L f` is an order-preserving subsequence of `L`
whose members are exactly the items of `L` whose lower-cased title
contains the lower-cased filter as a substring, each occurring exactly
as often as its matching occurrences in `L`. -/
theorem searchedStories_spec (L : List Story) (f : String) :
    (searchedStories L f).Sublist L
    ∧ (∀ x : Story, x ∈ searchedStories L f ↔
        x ∈ L ∧ jsIncludes (jsToLower x.title) (jsToLower f) = true)
    ∧ (∀ x : Story, (searchedStories L f).count x =
        if jsIncludes (jsToLower x.title) (jsToLower f) then L.count x else 0) := by
  refine ⟨List.filter_sublist L, fun x => ?_, fun x => ?_⟩
  · simp [searchedStories, List.mem_filter, storyMatches]
  · simpa [storyMatches] using count_filter_ite x (storyMatches f) L

/-- C2: `handleRemoveStory x` removes every element whose `objectID`
equals `x.objectID`, returns an order-preserving subsequence of the
input, and is the identity when no element of the input carries that
`objectID`. -/
theorem handleRemoveStory_spec (L : List Story) (x : Story) :
    (∀ s ∈ handleRemoveStory x L, s.objectID ≠ x.objectID)
    ∧ (handleRemoveStory x L).Sublist L
    ∧ ((∀ s ∈ L, s.objectID ≠ x.objectID) → handleRemoveStory x L = L) := by
  refine ⟨fun s hs => ?_, List.filter_sublist L, fun h => ?_⟩
  · have := (List.mem_filter.mp hs).2
    simp only [bne_iff_ne, ne_eq] at this
    exact fun he => this he.symm
  · apply List.filter_eq_self.mpr
    intro s hs
    simp only [bne_iff_ne, ne_eq]
    exact fun he => h s hs he.symm

/-- C2 witness: removing an `objectID` (5) absent from the seed list
leaves the list unchanged. -/
theorem handleRemoveStory_spec_witness :
    (∀ s ∈ initialStories, s.objectID ≠ (5 : Int))
    ∧ handleRemoveStory { reactStory with objectID := 5 } initialStories
        = initialStories :=
  ⟨by decide,
   (handleRemoveStory_spec initialStories { reactStory with objectID := 5 }).2.2
     (by decide)⟩


/-- C3 (the code, at its failing input): with the store holding
`"stored"` under the key `"search"`, `useStorageState("search",
"React")` initialises to the default `"React"`, not to the stored
value — the source reads the literal key `'key'`, contradicting its
own comments and the intended contract. -/
theorem useStorageStateInit_readsLiteralKey :
    useStorageStateInit (jsSetItem emptyStore "search" "stored") "search" "React"
        = "React"
    ∧ useStorageStateInit (jsSetItem emptyStore "search" "stored") "search" "React"
        ≠ "stored" := by
  constructor <;> decide

/-- C4: whenever the dependency array `[value, key]` differs from the
one last observed (a value change, a key change, or the first run), the
write-back effect fires: afterwards the store holds the current value
under the current key, and the recorded dependencies are updated. -/
theorem runStorageEffect_writesBack (s : CellRun)
    (h : s.lastDeps ≠ some (s.value, s.key)) :
    jsGetItem (runStorageEffect s).store s.key = some s.value
    ∧ (runStorageEffect s).lastDeps = some (s.value, s.key) := by
  unfold runStorageEffect
  rw [if_neg h]
  exact ⟨by simp [jsGetItem, jsSetItem], rfl⟩

/-- C4 witness: a cell whose key just changed from `"search"` to
`"filter"` (value `"React"` unchanged) gets written back under the new
key. -/
theorem runStorageEffect_writesBack_witness :
    ({ value := "React", key := "filter", store := emptyStore
     , lastDeps := some ("React", "search") } : CellRun).lastDeps
        ≠ some ("React", "filter")
    ∧ jsGetItem (runStorageEffect
        { value := "React", key := "filter", store := emptyStore
        , lastDeps := some ("React", "search") }).store "filter" = some "React"
    ∧ (runStorageEffect
        { value := "React", key := "filter", store := emptyStore
        , lastDeps := some ("React", "search") }).lastDeps
        = some ("React", "filter") :=
  ⟨by decide,
   runStorageEffect_writesBack
     { value := "React", key := "filter", store := emptyStore
     , lastDeps := some ("React", "search") } (by decide)⟩

/-- C5 (the code, at its failing input): in the `src/src/App.jsx` copy
the `Item` component destructures only `{item}`, so the Dismiss
trigger's `onRemoveItem` is unbound: activating it on any row (here the
Redux row) throws a `ReferenceError` and never invokes the removal
callback, contradicting the claimed totality of the per-row removal
trigger. -/
theorem itemOnClickJsx_throws :
    itemOnClickJsx (List Story) reduxStory
        = Except.error "ReferenceError: onRemoveItem is not defined"
    ∧ ∀ r : List Story, itemOnClickJsx (List Story) reduxStory ≠ Except.ok r :=
  ⟨rfl, fun r h => by simp [itemOnClickJsx] at h⟩

/-- C6: the removal result's length is the input length minus the
number of elements carrying the removed `objectID`, and removal is
idempotent. -/
theorem handleRemoveStory_length_idem (L : List Story) (x : Story) :
    (handleRemoveStory x L).length
        = L.length - L.countP (fun s => s.objectID == x.objectID)
    ∧ handleRemoveStory x (handleRemoveStory x L) = handleRemoveStory x L := by
  constructor
  · have hsplit := List.length_eq_length_filter_add
      (l := L) (fun s : Story => x.objectID != s.objectID)
    have hpred : (L.filter fun s : Story => !(x.objectID != s.objectID))
        = L.filter fun s : Story => s.objectID == x.objectID := by
      apply List.filter_congr
      intro s _
      simp [bne, eq_comm]
    simp only [handleRemoveStory]
    rw [List.countP_eq_length_filter, ← hpred, hsplit]
    omega
  · simp only [handleRemoveStory, List.filter_filter]
    apply List.filter_congr
    intro s _
    simp

/-- C7: derivation under the empty filter text is the identity on the
collection: the empty string matches every title. -/
theorem searchedStories_empty_filter (L : List Story) :
    searchedStories L "" = L := by
  apply List.filter_eq_self.mpr
  intro a _
  simp only [storyMatches, jsIncludes, jsToLower]
  exact strIncludes_nil _

/-- C8: on the fixed seed collection, filtering by `"Red"` yields
exactly the Redux story, removing `objectID 1` leaves exactly the React
story, and filtering by `"xyz"` yields the empty sequence. -/
theorem endToEnd_seed :
    searchedStories initialStories "Red" = [reduxStory]
    ∧ handleRemoveStory reduxStory initialStories = [reactStory]
    ∧ searchedStories initialStories "xyz" = [] := by
  refine ⟨by decide, by decide, by decide⟩

/-- C9: the initial value of the cell is independent of the store entry
under the cell's own key `k` (for `k` other than the literal `"key"`):
two stores differing only at `k` yield the same initial value, because
the read consults only the entry under the literal string `"key"`. -/
theorem useStorageStateInit_keyIndependent (s1 s2 : Store) (k d : String)
    (hk : k ≠ "key") (h : ∀ k', k' ≠ k → s1 k' = s2 k') :
    useStorageStateInit s1 k d = useStorageStateInit s2 k d := by
  unfold useStorageStateInit jsGetItem
  rw [h "key" (Ne.symm hk)]

/-- C9 witness: storing a value under `"search"` does not change the
initial value of a cell created with key `"search"`. -/
theorem useStorageStateInit_keyIndependent_witness :
    ("search" : String) ≠ "key"
    ∧ useStorageStateInit emptyStore "search" "React"
        = useStorageStateInit (jsSetItem emptyStore "search" "x") "search" "React" :=
  ⟨by decide,
   useStorageStateInit_keyIndependent emptyStore
     (jsSetItem emptyStore "search" "x") "search" "React" (by decide)
     (fun k' h' => by simp [emptyStore, jsSetItem, h'])⟩

/-- C10: the remove transition changes only the `stories` collection,
leaving `searchTerm` unchanged, and the search transition changes only
`searchTerm`, leaving `stories` unchanged. -/
theorem handlers_frame (s : AppState) (x : Story) (event : JsEvent) :
    (appRemove s x).searchTerm = s.searchTerm
    ∧ (appSearch s event).stories = s.stories :=
  ⟨rfl, rfl⟩
